import Mathlib

/-!
Verification of the authentication-token lifecycle of the online-cinema API
service: a shallow embedding of `src/routes/accounts.py`,
`src/database/crud/accounts.py` and `src/utils/dependencies.py`, with the
JWT codec and password hasher (whose source modules are not part of the
checked tree) modelled from the specification.  Database state is passed
explicitly; each route returns the new state, the e-mails it sent and
either a response value or the HTTP error it raised.
-/

deriving instance DecidableEq for Except

namespace Cinema

/-- A row of the `users` table (`User` model): id, email, stored password
hash, the `is_active` flag and the group id. -/
structure UserRec where
  id : Nat
  email : String
  passwordHash : String
  isActive : Bool
  groupId : Nat
deriving DecidableEq, Repr

/-- Claims payload of a signed session token:
`{user_id, token_type, issued_at, expires_at}` (timestamps as integers). -/
structure JwtPayload where
  userId : Nat
  tokenType : String
  issuedAt : Int
  expiresAt : Int
deriving DecidableEq, Repr

/-- Modelled from the spec: a token string on the wire.  A `plain` value
is a random URL-safe string (activation / password-reset tokens); a `jwt`
value is a signed token, which can only exist carrying the key that signed
it (forging without the key is impossible, which the constructor makes
structural). -/
inductive TokenString where
  | plain (s : String)
  | jwt (key : String) (payload : JwtPayload)
deriving DecidableEq, Repr

/-- A persisted activation or password-reset token row:
`{id, token, user_id, expires_at}`. -/
structure StoredToken where
  id : Nat
  token : TokenString
  userId : Nat
  expiresAt : Int
deriving DecidableEq, Repr

/-- A persisted refresh-token row: `{id, token, user_id, expires_at}`. -/
structure RefreshRec where
  id : Nat
  token : TokenString
  userId : Nat
  expiresAt : Int
deriving DecidableEq, Repr

/-- The database state the accounts routes touch: the `users` table and the
three persisted token tables. -/
structure DB where
  users : List UserRec
  activationTokens : List StoredToken
  passwordResetTokens : List StoredToken
  refreshTokens : List RefreshRec
deriving DecidableEq, Repr

/-- Modelled from the spec: the process-wide settings: the two distinct
secret keys, default ttls, and the password hasher pair (the
`security/token_manager.py` and password-model modules are not in the
checked tree; §4.1, §4.2, §6 of the spec describe them). -/
structure Config where
  secretKeyAccess : String
  secretKeyRefresh : String
  accessTtl : Int
  refreshTtl : Int
  loginTimeDays : Int
  passwordResetTtl : Int
  hashPassword : String → String
  verifyPassword : String → String → Bool

/-- The typed security failures of the codec (`BaseSecurityError`):
bad signature / structure vs. valid signature with expiry passed. -/
inductive SecError where
  | invalidToken
  | tokenExpired
deriving DecidableEq, Repr

/-- The string the route interpolates into the 400 detail
(`detail=str(error)`). -/
def SecError.message : SecError → String
  | .invalidToken => "Invalid token."
  | .tokenExpired => "Token has expired."

/-- Modelled from the spec: `create_access_token` adds
`token_type="access"`, `issued_at=now`, `expires_at=now+ttl` and signs with
the access secret key. -/
def create_access_token (cfg : Config) (userId : Nat) (now : Int) :
    TokenString :=
  TokenString.jwt cfg.secretKeyAccess
    ⟨userId, "access", now, now + cfg.accessTtl⟩

/-- Modelled from the spec: `create_refresh_token` is identical in shape
but signed with the distinct refresh secret key and its own default ttl. -/
def create_refresh_token (cfg : Config) (userId : Nat) (now : Int) :
    TokenString :=
  TokenString.jwt cfg.secretKeyRefresh
    ⟨userId, "refresh", now, now + cfg.refreshTtl⟩

/-- Modelled from the spec: decoding verifies the signature against the
given key (wrong key, or an opaque string, is `InvalidTokenError`) and then
that `expires_at > now` strictly (otherwise `TokenExpiredError`). -/
def decode_with_key (key : String) (t : TokenString) (now : Int) :
    Except SecError JwtPayload :=
  match t with
  | .plain _ => .error .invalidToken
  | .jwt k payload =>
      if k = key then
        if now < payload.expiresAt then .ok payload
        else .error .tokenExpired
      else .error .invalidToken

/-- Modelled from the spec: `decode_access_token` verifies against the
access secret key. -/
def decode_access_token (cfg : Config) (t : TokenString) (now : Int) :
    Except SecError JwtPayload :=
  decode_with_key cfg.secretKeyAccess t now

/-- Modelled from the spec: `decode_refresh_token` verifies against the
refresh secret key. -/
def decode_refresh_token (cfg : Config) (t : TokenString) (now : Int) :
    Except SecError JwtPayload :=
  decode_with_key cfg.secretKeyRefresh t now

/-- `get_user_by_email`: `select(User).filter_by(email=email)` then
`.first()`. -/
def get_user_by_email (db : DB) (email : String) : Option UserRec :=
  (db.users.filter (fun u => u.email == email)).head?

/-- `get_user_by_id`: `select(User).filter_by(id=user_id)` then
`.first()`. -/
def get_user_by_id (db : DB) (userId : Nat) : Option UserRec :=
  (db.users.filter (fun u => u.id == userId)).head?

/-- One candidate row of the join in
`get_activation_token_by_email_token`: the activation token joined with
its user (`join(User)` on the relationship), kept when
`User.email == email` and `ActivationToken.token == token`. -/
def activationMatchEntry (db : DB) (email : String) (token : TokenString)
    (t : StoredToken) : Option (StoredToken × UserRec) :=
  match get_user_by_id db t.userId with
  | some u =>
      if u.email == email && t.token == token then some (t, u) else none
  | none => none

/-- The rows produced by the join in `get_activation_token_by_email_token`,
each hit paired with its (joined-loaded) user. -/
def activationMatches (db : DB) (email : String) (token : TokenString) :
    List (StoredToken × UserRec) :=
  db.activationTokens.filterMap (activationMatchEntry db email token)

/-- `get_activation_token_by_email_token`: the first row of the join (with
its user via `joinedload`), or none. -/
def get_activation_token_by_email_token (db : DB) (email : String)
    (token : TokenString) : Option (StoredToken × UserRec) :=
  (activationMatches db email token).head?

/-- `delete_token` applied to an activation-token row: `db.delete(token)`
removes that row. -/
def deleteActivationToken (db : DB) (tokenId : Nat) : DB :=
  { db with activationTokens :=
      db.activationTokens.filter (fun t => t.id != tokenId) }

/-- `delete_token` applied to a password-reset-token row. -/
def deletePasswordResetToken (db : DB) (tokenId : Nat) : DB :=
  { db with passwordResetTokens :=
      db.passwordResetTokens.filter (fun t => t.id != tokenId) }

/-- `delete_token` applied to a refresh-token row. -/
def deleteRefreshToken (db : DB) (tokenId : Nat) : DB :=
  { db with refreshTokens :=
      db.refreshTokens.filter (fun t => t.id != tokenId) }

/-- `delete_password_reset_token_by_user_id`:
`delete(PasswordResetToken).where(user_id == user_id)` — every reset-token
row of that user is removed. -/
def delete_password_reset_token_by_user_id (db : DB) (userId : Nat) : DB :=
  { db with passwordResetTokens :=
      db.passwordResetTokens.filter (fun t => t.userId != userId) }

/-- `create_password_reset_token_by_user_id`: inserts
`PasswordResetToken(user_id=user_id)`; the fresh row id, the securely
generated opaque token string and the `now + ttl` expiry (model defaults
not in the checked tree, modelled from the spec) are passed in
explicitly. -/
def create_password_reset_token_by_user_id (db : DB) (userId : Nat)
    (freshId : Nat) (freshToken : TokenString) (expiresAt : Int) : DB :=
  { db with passwordResetTokens :=
      db.passwordResetTokens ++ [⟨freshId, freshToken, userId, expiresAt⟩] }

/-- `get_password_reset_token_by_user_id`:
`select(PasswordResetToken).filter_by(user_id=user_id)` then `.first()`. -/
def get_password_reset_token_by_user_id (db : DB) (userId : Nat) :
    Option StoredToken :=
  (db.passwordResetTokens.filter (fun t => t.userId == userId)).head?

/-- `create_refresh_token_by_user_id_days_token`: inserts
`RefreshToken.create(user_id, days_valid, token)`; the expiry
`now + days_valid` days comes from the model's `create` (modelled from the
spec: ttl = configured login duration). -/
def create_refresh_token_by_user_id_days_token (db : DB) (userId : Nat)
    (daysValid : Int) (token : TokenString) (now : Int) (freshId : Nat) :
    DB :=
  { db with refreshTokens :=
      db.refreshTokens ++ [⟨freshId, token, userId, now + daysValid * 86400⟩] }

/-- `get_refresh_token_by_refresh_token`:
`select(RefreshToken).filter_by(token=refresh_token)` then `.first()`. -/
def get_refresh_token_by_refresh_token (db : DB) (refreshToken : TokenString) :
    Option RefreshRec :=
  (db.refreshTokens.filter (fun t => t.token == refreshToken)).head?

/-- `user.is_active = True`: mutate the user row with that id. -/
def setUserActive (db : DB) (userId : Nat) : DB :=
  { db with users := db.users.map (fun u =>
      if u.id == userId then { u with isActive := true } else u) }

/-- `user.password = data.password`: the model's password setter stores the
hash of the new password (hasher modelled from the spec). -/
def setUserPassword (cfg : Config) (db : DB) (userId : Nat)
    (rawPassword : String) : DB :=
  { db with users := db.users.map (fun u =>
      if u.id == userId then { u with passwordHash := cfg.hashPassword rawPassword }
      else u) }

/-- The HTTP errors the routes raise (`HTTPException` with status code and
detail). -/
inductive ApiError where
  | badRequest (detail : String)
  | unauthorized (detail : String)
  | forbidden (detail : String)
  | notFound (detail : String)
deriving DecidableEq, Repr

/-- The e-mails a route hands to the `EmailSenderInterface`. -/
inductive EmailEvent where
  | activation (recipient : String) (token : TokenString)
  | activationComplete (recipient : String)
  | passwordReset (recipient : String)
  | passwordResetComplete (recipient : String)
deriving DecidableEq, Repr

/-- Outcome of one route call: the database state after the call (mutations
committed before an exception survive it), the e-mails sent, and the
response value or the raised error. -/
structure RouteResult (α : Type) where
  db : DB
  emails : List EmailEvent
  response : Except ApiError α
deriving Repr

/-- `POST /activate/` (`activate_account`): look the token up by
(email, token); if absent → 400 invalid; if `expires_at < now` → delete the
row, 400 invalid; if the user is already active → 400 already-active; else
set `is_active`, delete the row, send the completion e-mail. -/
def activate_account (db : DB) (now : Int) (email : String)
    (token : TokenString) : RouteResult String :=
  match get_activation_token_by_email_token db email token with
  | none =>
      ⟨db, [], .error (.badRequest "Invalid or expired activation token.")⟩
  | some (tokenRecord, user) =>
      if tokenRecord.expiresAt < now then
        ⟨deleteActivationToken db tokenRecord.id, [],
          .error (.badRequest "Invalid or expired activation token.")⟩
      else if user.isActive then
        ⟨db, [], .error (.badRequest "User account is already active.")⟩
      else
        let db1 := setUserActive db user.id
        let db2 := deleteActivationToken db1 tokenRecord.id
        ⟨db2, [.activationComplete email],
          .ok "User account activated successfully."⟩

/-- The generic message of `POST /password-reset/request/`, returned on
every path. -/
def passwordResetGenericMessage : String :=
  "If you are registered, you will receive an email with instructions."

/-- `POST /password-reset/request/` (`request_password_reset_token`): for a
missing or inactive user answer the generic message unchanged; otherwise
delete every reset token of the user, insert a fresh one and send the
reset e-mail — and still answer the generic message. -/
def request_password_reset_token (db : DB) (now : Int) (cfg : Config)
    (email : String) (freshId : Nat) (freshToken : TokenString) :
    RouteResult String :=
  match get_user_by_email db email with
  | none => ⟨db, [], .ok passwordResetGenericMessage⟩
  | some user =>
      if !user.isActive then ⟨db, [], .ok passwordResetGenericMessage⟩
      else
        let db1 := delete_password_reset_token_by_user_id db user.id
        let db2 := create_password_reset_token_by_user_id db1 user.id
          freshId freshToken (now + cfg.passwordResetTtl)
        ⟨db2, [.passwordReset email], .ok passwordResetGenericMessage⟩

/-- `POST /reset-password/complete/` (`reset_password`): missing or
inactive user → 400; no stored token or token mismatch → delete the stored
row if any, 400; `expires_at < now` → delete, 400; else store the new
password hash, delete the row, send the completion e-mail. -/
def reset_password (db : DB) (now : Int) (cfg : Config) (email : String)
    (token : TokenString) (newPassword : String) : RouteResult String :=
  match get_user_by_email db email with
  | none => ⟨db, [], .error (.badRequest "Invalid email or token.")⟩
  | some user =>
      if !user.isActive then
        ⟨db, [], .error (.badRequest "Invalid email or token.")⟩
      else
        match get_password_reset_token_by_user_id db user.id with
        | none => ⟨db, [], .error (.badRequest "Invalid email or token.")⟩
        | some tokenRecord =>
            if tokenRecord.token != token then
              ⟨deletePasswordResetToken db tokenRecord.id, [],
                .error (.badRequest "Invalid email or token.")⟩
            else if tokenRecord.expiresAt < now then
              ⟨deletePasswordResetToken db tokenRecord.id, [],
                .error (.badRequest "Invalid email or token.")⟩
            else
              let db1 := setUserPassword cfg db user.id newPassword
              let db2 := deletePasswordResetToken db1 tokenRecord.id
              ⟨db2, [.passwordResetComplete email],
                .ok "Password reset successfully."⟩

/-- `POST /login/` (`login_user`): unknown email or failing
`verify_password` → 401 invalid-credentials; inactive account (checked
only after the password verified) → 403; else persist a refresh-token row
and return the signed access and refresh tokens. -/
def login_user (db : DB) (now : Int) (cfg : Config) (email : String)
    (password : String) (freshId : Nat) :
    RouteResult (TokenString × TokenString) :=
  match get_user_by_email db email with
  | none => ⟨db, [], .error (.unauthorized "Invalid email or password.")⟩
  | some user =>
      if !cfg.verifyPassword password user.passwordHash then
        ⟨db, [], .error (.unauthorized "Invalid email or password.")⟩
      else if !user.isActive then
        ⟨db, [], .error (.forbidden "User account is not activated.")⟩
      else
        let jwtRefreshToken := create_refresh_token cfg user.id now
        let db1 := create_refresh_token_by_user_id_days_token db user.id
          cfg.loginTimeDays jwtRefreshToken now freshId
        let jwtAccessToken := create_access_token cfg user.id now
        ⟨db1, [], .ok (jwtAccessToken, jwtRefreshToken)⟩

/-- `POST /refresh/` (`refresh_access_token`): decode the refresh token
(decode failure → 400 with the error's message); require the exact token
string to still exist in the store (else 401 "Refresh token not found.");
require the decoded user to exist (else 404 "User not found."); then
return a freshly minted access token, touching no state. -/
def refresh_access_token (db : DB) (now : Int) (cfg : Config)
    (refreshToken : TokenString) : RouteResult TokenString :=
  match decode_refresh_token cfg refreshToken now with
  | .error e => ⟨db, [], .error (.badRequest e.message)⟩
  | .ok decodedToken =>
      match get_refresh_token_by_refresh_token db refreshToken with
      | none => ⟨db, [], .error (.unauthorized "Refresh token not found.")⟩
      | some _ =>
          match get_user_by_id db decodedToken.userId with
          | none => ⟨db, [], .error (.notFound "User not found.")⟩
          | some _ =>
              ⟨db, [], .ok (create_access_token cfg decodedToken.userId now)⟩

/-- `POST /logout/` (`logout_user`): look the refresh-token row up by its
string (absent → 401 "Refresh token not found."), then delete it. -/
def logout_user (db : DB) (refreshToken : TokenString) :
    RouteResult String :=
  match get_refresh_token_by_refresh_token db refreshToken with
  | none => ⟨db, [], .error (.unauthorized "Refresh token not found.")⟩
  | some tokenRecord =>
      ⟨deleteRefreshToken db tokenRecord.id, [],
        .ok "User logged out successfully."⟩

/-- `get_current_user` (`src/utils/dependencies.py`): decode the access
token (any failure → 401), then load the user row by the decoded id
(absent → 404).  No token table is consulted. -/
def get_current_user (db : DB) (now : Int) (cfg : Config)
    (token : TokenString) : RouteResult UserRec :=
  match decode_access_token cfg token now with
  | .error _ => ⟨db, [], .error (.unauthorized "Token expired or invalid")⟩
  | .ok tokenData =>
      match get_user_by_id db tokenData.userId with
      | none =>
          ⟨db, [], .error (.notFound "User with the given ID was not found.")⟩
      | some user => ⟨db, [], .ok user⟩

/-! ### Helper lemmas about the store queries -/

/-- An element returned by `head?` of a `filter` is a member of the list
and satisfies the predicate. -/
lemma head_filter_some {α : Type} (p : α → Bool) (l : List α) (a : α)
    (h : (l.filter p).head? = some a) : a ∈ l ∧ p a = true := by
  induction l with
  | nil => simp [List.filter] at h
  | cons x t ih =>
      by_cases hx : p x
      · rw [List.filter_cons_of_pos hx] at h
        simp only [List.head?_cons, Option.some.injEq] at h
        subst h
        exact ⟨List.mem_cons_self x t, hx⟩
      · rw [List.filter_cons_of_neg hx] at h
        exact ⟨List.mem_cons_of_mem x (ih h).1, (ih h).2⟩

/-- `head? ∘ filter` commutes with mapping a function that does not change
the filtered predicate. -/
lemma head_filter_map {α : Type} (f : α → α) (p : α → Bool)
    (hp : ∀ a, p (f a) = p a) (l : List α) :
    ((l.map f).filter p).head? = ((l.filter p).head?).map f := by
  induction l with
  | nil => rfl
  | cons x t ih =>
      by_cases hx : p x
      · rw [List.map_cons, List.filter_cons_of_pos (by rw [hp x]; exact hx),
          List.filter_cons_of_pos hx]
        rfl
      · rw [List.map_cons,
          List.filter_cons_of_neg (by rw [hp x]; exact hx),
          List.filter_cons_of_neg hx]
        exact ih

/-- Re-filtering with the complementary predicate yields nothing. -/
lemma filter_userId_of_ne_nil (l : List StoredToken) (uid : Nat) :
    ((l.filter (fun t => t.userId != uid)).filter
      (fun t => t.userId == uid)) = [] := by
  induction l with
  | nil => rfl
  | cons x t ih =>
      by_cases hx : x.userId = uid
      · rw [List.filter_cons_of_neg (by simp [hx])]
        exact ih
      · rw [List.filter_cons_of_pos (by simp [hx]),
          List.filter_cons_of_neg (by simp [hx])]
        exact ih

/-- A successful `get_user_by_id` returns a member row with the looked-up
id. -/
lemma get_user_by_id_some {db : DB} {uid : Nat} {u : UserRec}
    (h : get_user_by_id db uid = some u) : u ∈ db.users ∧ u.id = uid := by
  have h' := head_filter_some _ _ _ h
  exact ⟨h'.1, by simpa using h'.2⟩

/-- `get_user_by_id` reads only the `users` table. -/
lemma get_user_by_id_users_eq {db db' : DB} (h : db.users = db'.users)
    (uid : Nat) : get_user_by_id db uid = get_user_by_id db' uid := by
  simp [get_user_by_id, h]

/-- Effect of `user.is_active = True` on `get_user_by_id`. -/
lemma get_user_by_id_setUserActive (db : DB) (i uid : Nat) :
    get_user_by_id (setUserActive db i) uid =
      (get_user_by_id db uid).map
        (fun u => if u.id == i then { u with isActive := true } else u) := by
  unfold get_user_by_id setUserActive
  exact head_filter_map _ _
    (fun u => by by_cases h : u.id == i <;> simp [h]) db.users

/-- `get_current_user` gives the same response on any two databases with
the same `users` table: it never consults a token table. -/
lemma get_current_user_congr {db db' : DB} (h : db.users = db'.users)
    (now : Int) (cfg : Config) (tok : TokenString) :
    (get_current_user db now cfg tok).response =
      (get_current_user db' now cfg tok).response := by
  unfold get_current_user
  cases hd : decode_access_token cfg tok now with
  | error e => rfl
  | ok p =>
      dsimp only
      rw [get_user_by_id_users_eq h p.userId]
      cases get_user_by_id db' p.userId <;> rfl

/-- Logout never touches the `users` table. -/
lemma logout_preserves_users (db : DB) (tok : TokenString) :
    (logout_user db tok).db.users = db.users := by
  unfold logout_user
  cases get_refresh_token_by_refresh_token db tok <;> rfl

/-! ### Fixtures for the concrete witnesses -/

/-- A concrete configuration used by the witnesses. -/
def cfgFix : Config :=
  ⟨"access-key", "refresh-key", 60, 600, 7, 3600,
    fun p => "h:" ++ p, fun p h => ("h:" ++ p) == h⟩

/-- A refresh token signed with the fixture refresh key, unexpired at
`now = 0`. -/
def refreshTokFix : TokenString :=
  TokenString.jwt "refresh-key" ⟨1, "refresh", 0, 100⟩

/-- An active fixture user whose stored hash matches password `pw`. -/
def userFix : UserRec := ⟨1, "a@b.com", "h:pw", true, 1⟩

/-- A database holding only the fixture user and no token rows. -/
def dbNoRow : DB := ⟨[userFix], [], [], []⟩

/-! ### The claims -/

/-- C1: if a refresh token decodes successfully but its exact string has no
persisted row, the refresh flow rejects with 401 "Refresh token not found."
(not a decode error); if the decoded user id matches no user it rejects
with the not-found error; a refresh succeeds only when the token decodes,
its string is still stored, and the user exists; a decode failure, by
contrast, is a 400 carrying the decode error's message. -/
theorem refresh_requires_persisted_row (db : DB) (now : Int) (cfg : Config)
    (tok : TokenString) :
    (∀ payload, decode_refresh_token cfg tok now = .ok payload →
      get_refresh_token_by_refresh_token db tok = none →
      (refresh_access_token db now cfg tok).response =
        .error (.unauthorized "Refresh token not found."))
    ∧ (∀ payload rec, decode_refresh_token cfg tok now = .ok payload →
        get_refresh_token_by_refresh_token db tok = some rec →
        get_user_by_id db payload.userId = none →
        (refresh_access_token db now cfg tok).response =
          .error (.notFound "User not found."))
    ∧ (∀ t, (refresh_access_token db now cfg tok).response = .ok t →
        ∃ payload rec user,
          decode_refresh_token cfg tok now = .ok payload
          ∧ get_refresh_token_by_refresh_token db tok = some rec
          ∧ get_user_by_id db payload.userId = some user)
    ∧ (∀ e, decode_refresh_token cfg tok now = .error e →
        (refresh_access_token db now cfg tok).response =
          .error (.badRequest e.message)) := by
  refine ⟨?_, ?_, ?_, ?_⟩
  · intro payload hdec hnone
    simp [refresh_access_token, hdec, hnone]
  · intro payload rec hdec hsome hnouser
    simp [refresh_access_token, hdec, hsome, hnouser]
  · intro t ht
    unfold refresh_access_token at ht
    cases hd : decode_refresh_token cfg tok now with
    | error e => simp [hd] at ht
    | ok payload =>
        simp only [hd] at ht
        cases hl : get_refresh_token_by_refresh_token db tok with
        | none => simp [hl] at ht
        | some rec =>
            simp only [hl] at ht
            cases hu : get_user_by_id db payload.userId with
            | none => simp [hu] at ht
            | some user => exact ⟨payload, rec, user, rfl, rfl, hu⟩
  · intro e hdec
    simp [refresh_access_token, hdec]

/-- C1 witness: a cryptographically valid refresh token with no stored row
is rejected with the 401 not-found error. -/
theorem refresh_requires_persisted_row_witness :
    decode_refresh_token cfgFix refreshTokFix 0 =
      .ok ⟨1, "refresh", 0, 100⟩
    ∧ get_refresh_token_by_refresh_token dbNoRow refreshTokFix = none
    ∧ (refresh_access_token dbNoRow 0 cfgFix refreshTokFix).response =
        .error (.unauthorized "Refresh token not found.") :=
  ⟨by decide, by decide,
    (refresh_requires_persisted_row dbNoRow 0 cfgFix refreshTokFix).1
      ⟨1, "refresh", 0, 100⟩ (by decide) (by decide)⟩

/-- C2: a login whose password fails verification (or whose email matches
no user) is rejected with the 401 authentication error even when the
account is inactive; the 403 inactive error is returned only when the
password verifies and the account is inactive. -/
theorem login_checks_credentials_before_inactive (db : DB) (now : Int)
    (cfg : Config) (email emailUnknown pwWrong pwRight : String)
    (freshId : Nat) (user : UserRec)
    (hu : get_user_by_email db email = some user)
    (hwrong : cfg.verifyPassword pwWrong user.passwordHash = false)
    (hright : cfg.verifyPassword pwRight user.passwordHash = true)
    (hinactive : user.isActive = false)
    (hnone : get_user_by_email db emailUnknown = none) :
    (login_user db now cfg email pwWrong freshId).response =
      .error (.unauthorized "Invalid email or password.")
    ∧ (login_user db now cfg emailUnknown pwWrong freshId).response =
        .error (.unauthorized "Invalid email or password.")
    ∧ (login_user db now cfg email pwRight freshId).response =
        .error (.forbidden "User account is not activated.") := by
  refine ⟨?_, ?_, ?_⟩
  · simp [login_user, hu, hwrong]
  · simp [login_user, hnone]
  · simp [login_user, hu, hright, hinactive]

/-- C2 witness: an inactive user with a wrong password gets 401, with the
right password 403. -/
theorem login_checks_credentials_before_inactive_witness :
    get_user_by_email ⟨[⟨1, "a@b.com", "h:pw", false, 1⟩], [], [], []⟩
        "a@b.com" = some ⟨1, "a@b.com", "h:pw", false, 1⟩
    ∧ cfgFix.verifyPassword "bad" "h:pw" = false
    ∧ cfgFix.verifyPassword "pw" "h:pw" = true
    ∧ (login_user ⟨[⟨1, "a@b.com", "h:pw", false, 1⟩], [], [], []⟩ 0 cfgFix
          "a@b.com" "bad" 7).response =
        .error (.unauthorized "Invalid email or password.")
    ∧ (login_user ⟨[⟨1, "a@b.com", "h:pw", false, 1⟩], [], [], []⟩ 0 cfgFix
          "z@b.com" "bad" 7).response =
        .error (.unauthorized "Invalid email or password.")
    ∧ (login_user ⟨[⟨1, "a@b.com", "h:pw", false, 1⟩], [], [], []⟩ 0 cfgFix
          "a@b.com" "pw" 7).response =
        .error (.forbidden "User account is not activated.") := by
  have h := login_checks_credentials_before_inactive
    ⟨[⟨1, "a@b.com", "h:pw", false, 1⟩], [], [], []⟩ 0 cfgFix
    "a@b.com" "z@b.com" "bad" "pw" 7 ⟨1, "a@b.com", "h:pw", false, 1⟩
    (by decide) (by decide) (by decide) (by decide) (by decide)
  exact ⟨by decide, by decide, by decide, h.1, h.2.1, h.2.2⟩

/-- C7: verifying an access token reads only the `users` table — two
databases with the same users give the same response whatever their token
tables hold — it changes no state, and a logout (which only deletes a
refresh-token row) never changes the outcome of access-token
verification. -/
theorem access_verification_is_stateless (db db' : DB) (now : Int)
    (cfg : Config) (tok tok2 : TokenString) (husers : db.users = db'.users) :
    (get_current_user db now cfg tok).response =
      (get_current_user db' now cfg tok).response
    ∧ (get_current_user db now cfg tok).db = db
    ∧ (get_current_user (logout_user db tok2).db now cfg tok).response =
        (get_current_user db now cfg tok).response := by
  refine ⟨get_current_user_congr husers now cfg tok, ?_, ?_⟩
  · unfold get_current_user
    cases decode_access_token cfg tok now with
    | error e => rfl
    | ok p =>
        dsimp only
        cases get_user_by_id db p.userId <;> rfl
  · exact get_current_user_congr (logout_preserves_users db tok2) now cfg tok

/-- C7 witness: deleting a refresh-token row leaves access-token
verification unchanged on a concrete state. -/
theorem access_verification_is_stateless_witness :
    (⟨[userFix], [], [], [⟨5, refreshTokFix, 1, 100⟩]⟩ : DB).users =
      dbNoRow.users
    ∧ (get_current_user ⟨[userFix], [], [], [⟨5, refreshTokFix, 1, 100⟩]⟩ 0
          cfgFix (TokenString.jwt "access-key" ⟨1, "access", 0, 60⟩)).response =
        (get_current_user dbNoRow 0 cfgFix
          (TokenString.jwt "access-key" ⟨1, "access", 0, 60⟩)).response :=
  ⟨by decide,
    (access_verification_is_stateless
      ⟨[userFix], [], [], [⟨5, refreshTokFix, 1, 100⟩]⟩ dbNoRow 0 cfgFix
      (TokenString.jwt "access-key" ⟨1, "access", 0, 60⟩) refreshTokFix
      (by decide)).1⟩

/-- C8: the refresh flow never mutates the database — in particular the
persisted refresh-token rows are exactly those before the call — and a
successful refresh answers precisely a freshly minted access token for the
decoded user id, issued at the current instant. -/
theorem refresh_is_pure_no_rotation (db : DB) (now : Int) (cfg : Config)
    (tok : TokenString) :
    (refresh_access_token db now cfg tok).db = db
    ∧ (refresh_access_token db now cfg tok).db.refreshTokens =
        db.refreshTokens
    ∧ (∀ t, (refresh_access_token db now cfg tok).response = .ok t →
        ∃ payload, decode_refresh_token cfg tok now = .ok payload
          ∧ t = create_access_token cfg payload.userId now) := by
  have hdb : (refresh_access_token db now cfg tok).db = db := by
    unfold refresh_access_token
    cases decode_refresh_token cfg tok now with
    | error e => rfl
    | ok payload =>
        dsimp only
        cases get_refresh_token_by_refresh_token db tok with
        | none => rfl
        | some rec =>
            dsimp only
            cases get_user_by_id db payload.userId <;> rfl
  refine ⟨hdb, by rw [hdb], ?_⟩
  intro t ht
  unfold refresh_access_token at ht
  cases hd : decode_refresh_token cfg tok now with
  | error e => simp [hd] at ht
  | ok payload =>
      simp only [hd] at ht
      cases hl : get_refresh_token_by_refresh_token db tok with
      | none => simp [hl] at ht
      | some rec =>
          simp only [hl] at ht
          cases hu : get_user_by_id db payload.userId with
          | none => simp [hu] at ht
          | some user =>
              simp only [hu] at ht
              simp at ht
              exact ⟨payload, rfl, ht.symm⟩

/-- C8 witness: on a concrete state holding the refresh row, the refresh
flow leaves the database unchanged. -/
theorem refresh_is_pure_no_rotation_witness :
    (refresh_access_token ⟨[userFix], [], [], [⟨5, refreshTokFix, 1, 100⟩]⟩
        0 cfgFix refreshTokFix).db =
      ⟨[userFix], [], [], [⟨5, refreshTokFix, 1, 100⟩]⟩
    ∧ (refresh_access_token ⟨[userFix], [], [], [⟨5, refreshTokFix, 1, 100⟩]⟩
        0 cfgFix refreshTokFix).response =
      .ok (TokenString.jwt "access-key" ⟨1, "access", 0, 60⟩) :=
  ⟨(refresh_is_pure_no_rotation ⟨[userFix], [], [], [⟨5, refreshTokFix, 1, 100⟩]⟩
      0 cfgFix refreshTokFix).1, by decide⟩

/-- The head of a list, when it exists, is a member. -/
lemma mem_of_head_eq_some {α : Type} {l : List α} {a : α}
    (h : l.head? = some a) : a ∈ l := by
  cases l with
  | nil => simp at h
  | cons x t =>
      simp only [List.head?_cons, Option.some.injEq] at h
      subst h
      exact List.mem_cons_self x t

/-- What a successful join candidate tells us: the hit is the row itself,
its user was found by id, and both filters of the join held. -/
lemma activationMatchEntry_some {db : DB} {email : String}
    {tok : TokenString} {a : StoredToken} {p : StoredToken × UserRec}
    (h : activationMatchEntry db email tok a = some p) :
    p.1 = a ∧ get_user_by_id db a.userId = some p.2
      ∧ p.2.email = email ∧ a.token = tok := by
  unfold activationMatchEntry at h
  cases hu : get_user_by_id db a.userId with
  | none => rw [hu] at h; simp at h
  | some u' =>
      rw [hu] at h
      dsimp only at h
      by_cases hc : (u'.email == email && a.token == tok) = true
      · rw [if_pos hc] at h
        have hp : p = (a, u') := by
          cases h
          rfl
        have hc' : u'.email = email ∧ a.token = tok := by
          simpa using hc
        subst hp
        exact ⟨rfl, rfl, hc'.1, hc'.2⟩
      · rw [if_neg hc] at h
        simp at h

/-- A member of the activation join is a stored row whose user matches. -/
lemma mem_activationMatches {db : DB} {email : String} {tok : TokenString}
    {tr : StoredToken} {u : UserRec}
    (h : (tr, u) ∈ activationMatches db email tok) :
    tr ∈ db.activationTokens ∧ get_user_by_id db tr.userId = some u
      ∧ u.email = email ∧ tr.token = tok := by
  rcases List.mem_filterMap.mp h with ⟨a, ha, he⟩
  obtain ⟨h1, hgu, hem, htok⟩ := activationMatchEntry_some he
  have : tr = a := h1
  subst this
  exact ⟨ha, hgu, hem, htok⟩

/-- Appending the fresh singleton after deleting every row of the user
leaves exactly the fresh row for that user. -/
lemma filter_after_singleton (l : List StoredToken) (uid : Nat)
    (fresh : StoredToken) (hfresh : fresh.userId = uid) :
    ((l.filter (fun t => t.userId != uid)) ++ [fresh]).filter
      (fun t => t.userId == uid) = [fresh] := by
  rw [List.filter_append, filter_userId_of_ne_nil]
  simp [hfresh]

/-- C3: after a password-reset request for an existing active user exactly
one reset-token row exists for that user, the store lookup by user id
finds precisely the fresh row, and every remaining row of the user carries
the fresh token string — the previous token string is gone. -/
theorem reset_request_enforces_singleton (db : DB) (now : Int)
    (cfg : Config) (email : String) (freshId : Nat)
    (freshToken : TokenString) (user : UserRec)
    (hu : get_user_by_email db email = some user)
    (hact : user.isActive = true) :
    ((request_password_reset_token db now cfg email freshId
        freshToken).db.passwordResetTokens.filter
          (fun t => t.userId == user.id)).length = 1
    ∧ get_password_reset_token_by_user_id
        (request_password_reset_token db now cfg email freshId freshToken).db
        user.id
      = some ⟨freshId, freshToken, user.id, now + cfg.passwordResetTtl⟩
    ∧ (∀ t ∈ (request_password_reset_token db now cfg email freshId
          freshToken).db.passwordResetTokens,
        t.userId = user.id → t.token = freshToken) := by
  have hdb : (request_password_reset_token db now cfg email freshId
      freshToken).db.passwordResetTokens =
      (db.passwordResetTokens.filter (fun t => t.userId != user.id)) ++
        [⟨freshId, freshToken, user.id, now + cfg.passwordResetTtl⟩] := by
    simp [request_password_reset_token, hu, hact,
      delete_password_reset_token_by_user_id,
      create_password_reset_token_by_user_id]
  refine ⟨?_, ?_, ?_⟩
  · rw [hdb, filter_after_singleton db.passwordResetTokens user.id
      ⟨freshId, freshToken, user.id, now + cfg.passwordResetTtl⟩ rfl]
    rfl
  · unfold get_password_reset_token_by_user_id
    rw [hdb, filter_after_singleton db.passwordResetTokens user.id
      ⟨freshId, freshToken, user.id, now + cfg.passwordResetTtl⟩ rfl]
    rfl
  · intro t ht hid
    rw [hdb] at ht
    rcases List.mem_append.mp ht with h1 | h2
    · have := (List.mem_filter.mp h1).2
      simp [hid] at this
    · simp at h2
      rw [h2]

/-- C3 witness: requesting a reset for the fixture user replaces the old
stored reset token with the fresh one. -/
theorem reset_request_enforces_singleton_witness :
    get_user_by_email
        ⟨[userFix], [], [⟨3, .plain "OLD", 1, 50⟩], []⟩ "a@b.com"
      = some userFix
    ∧ userFix.isActive = true
    ∧ get_password_reset_token_by_user_id
        (request_password_reset_token
          ⟨[userFix], [], [⟨3, .plain "OLD", 1, 50⟩], []⟩ 10 cfgFix
          "a@b.com" 9 (.plain "NEW")).db 1
      = some ⟨9, .plain "NEW", 1, 3610⟩ :=
  ⟨by decide, by decide,
    (reset_request_enforces_singleton
      ⟨[userFix], [], [⟨3, .plain "OLD", 1, 50⟩], []⟩ 10 cfgFix "a@b.com"
      9 (.plain "NEW") userFix (by decide) (by decide)).2.1⟩

/-- C6: the password-reset request answers the identical generic message
in a run where the email belongs to an existing active user and in a run
where it does not (unknown email or inactive account); only the
existing-active-user run creates a token row and sends a reset e-mail,
while the other run changes nothing and sends nothing. -/
theorem reset_request_no_enumeration (db db' : DB) (now now' : Int)
    (cfg cfg' : Config) (email : String) (fid fid' : Nat)
    (ft ft' : TokenString) (user : UserRec)
    (hu : get_user_by_email db email = some user)
    (hact : user.isActive = true)
    (hmiss : ∀ u, get_user_by_email db' email = some u →
      u.isActive = false) :
    (request_password_reset_token db now cfg email fid ft).response =
      (request_password_reset_token db' now' cfg' email fid' ft').response
    ∧ (request_password_reset_token db now cfg email fid ft).response =
        .ok passwordResetGenericMessage
    ∧ (request_password_reset_token db now cfg email fid ft).emails =
        [.passwordReset email]
    ∧ (⟨fid, ft, user.id, now + cfg.passwordResetTtl⟩ : StoredToken) ∈
        (request_password_reset_token db now cfg email fid
          ft).db.passwordResetTokens
    ∧ (request_password_reset_token db' now' cfg' email fid' ft').db = db'
    ∧ (request_password_reset_token db' now' cfg' email fid' ft').emails
        = [] := by
  have hrun2 : request_password_reset_token db' now' cfg' email fid' ft' =
      ⟨db', [], .ok passwordResetGenericMessage⟩ := by
    unfold request_password_reset_token
    cases hl : get_user_by_email db' email with
    | none => rfl
    | some u =>
        dsimp only
        rw [hmiss u hl]
        rfl
  have hrun1resp : (request_password_reset_token db now cfg email fid
      ft).response = .ok passwordResetGenericMessage := by
    simp [request_password_reset_token, hu, hact]
  refine ⟨?_, hrun1resp, ?_, ?_, ?_, ?_⟩
  · rw [hrun2, hrun1resp]
  · simp [request_password_reset_token, hu, hact]
  · simp [request_password_reset_token, hu, hact,
      delete_password_reset_token_by_user_id,
      create_password_reset_token_by_user_id]
  · rw [hrun2]
  · rw [hrun2]

/-- C6 witness: the two runs (active user vs. unknown email) answer the
same generic message, and only the first sends mail. -/
theorem reset_request_no_enumeration_witness :
    (request_password_reset_token dbNoRow 10 cfgFix "a@b.com" 9
        (.plain "NEW")).response =
      (request_password_reset_token (⟨[], [], [], []⟩ : DB) 10 cfgFix
        "a@b.com" 9 (.plain "NEW")).response
    ∧ (request_password_reset_token (⟨[], [], [], []⟩ : DB) 10 cfgFix
        "a@b.com" 9 (.plain "NEW")).emails = [] :=
  ⟨(reset_request_no_enumeration dbNoRow (⟨[], [], [], []⟩ : DB) 10 10
      cfgFix cfgFix "a@b.com" 9 9 (.plain "NEW") (.plain "NEW") userFix
      (by decide) (by decide) (by intro u hu; simp [get_user_by_email] at hu)).1,
    (reset_request_no_enumeration dbNoRow (⟨[], [], [], []⟩ : DB) 10 10
      cfgFix cfgFix "a@b.com" 9 9 (.plain "NEW") (.plain "NEW") userFix
      (by decide) (by decide)
      (by intro u hu; simp [get_user_by_email] at hu)).2.2.2.2.2⟩

/-- C9: when the user exists and is active and a reset-token row is stored
but the submitted token string differs from the stored one, the completion
route deletes the stored row and then rejects with the generic 400 — the
genuine token is invalidated by the failed attempt. -/
theorem reset_complete_mismatch_deletes_token (db : DB) (now : Int)
    (cfg : Config) (email : String) (tok : TokenString)
    (newPassword : String) (user : UserRec) (tr : StoredToken)
    (hu : get_user_by_email db email = some user)
    (hact : user.isActive = true)
    (ht : get_password_reset_token_by_user_id db user.id = some tr)
    (hne : tr.token ≠ tok) :
    (reset_password db now cfg email tok newPassword).db =
      deletePasswordResetToken db tr.id
    ∧ (reset_password db now cfg email tok newPassword).response =
        .error (.badRequest "Invalid email or token.")
    ∧ tr ∉ (reset_password db now cfg email tok
        newPassword).db.passwordResetTokens := by
  have hb : (tr.token != tok) = true := by
    simp [bne_iff_ne, hne]
  have h1 : reset_password db now cfg email tok newPassword =
      ⟨deletePasswordResetToken db tr.id, [],
        .error (.badRequest "Invalid email or token.")⟩ := by
    simp [reset_password, hu, hact, ht, hb]
  refine ⟨by rw [h1], by rw [h1], ?_⟩
  rw [h1]
  simp [deletePasswordResetToken, List.mem_filter]

/-- C9 witness: a single mismatched completion attempt removes the stored
fixture reset token. -/
theorem reset_complete_mismatch_deletes_token_witness :
    get_user_by_email ⟨[userFix], [], [⟨3, .plain "OLD", 1, 50⟩], []⟩
        "a@b.com" = some userFix
    ∧ get_password_reset_token_by_user_id
        ⟨[userFix], [], [⟨3, .plain "OLD", 1, 50⟩], []⟩ 1
      = some ⟨3, .plain "OLD", 1, 50⟩
    ∧ (⟨3, .plain "OLD", 1, 50⟩ : StoredToken) ∉
        (reset_password ⟨[userFix], [], [⟨3, .plain "OLD", 1, 50⟩], []⟩ 10
          cfgFix "a@b.com" (.plain "WRONG") "npw").db.passwordResetTokens :=
  ⟨by decide, by decide,
    (reset_complete_mismatch_deletes_token
      ⟨[userFix], [], [⟨3, .plain "OLD", 1, 50⟩], []⟩ 10 cfgFix "a@b.com"
      (.plain "WRONG") "npw" userFix ⟨3, .plain "OLD", 1, 50⟩
      (by decide) (by decide) (by decide) (by decide)).2.2⟩

/-- C10: an activation request whose matching token is unexpired but whose
user is already active is rejected with 400 "User account is already
active." and changes nothing: the token row is still stored afterwards. -/
theorem activate_already_active_keeps_token (db : DB) (now : Int)
    (email : String) (tok : TokenString) (tr : StoredToken) (u : UserRec)
    (hm : get_activation_token_by_email_token db email tok = some (tr, u))
    (hexp : ¬ tr.expiresAt < now)
    (hact : u.isActive = true) :
    (activate_account db now email tok).response =
      .error (.badRequest "User account is already active.")
    ∧ (activate_account db now email tok).db = db
    ∧ tr ∈ (activate_account db now email tok).db.activationTokens := by
  have h1 : activate_account db now email tok =
      ⟨db, [], .error (.badRequest "User account is already active.")⟩ := by
    simp [activate_account, hm, hexp, hact]
  have hmem : tr ∈ db.activationTokens :=
    (mem_activationMatches (mem_of_head_eq_some hm)).1
  exact ⟨by rw [h1], by rw [h1], by rw [h1]; exact hmem⟩

/-- C10 witness: activating an already-active fixture account leaves its
valid activation token stored. -/
theorem activate_already_active_keeps_token_witness :
    get_activation_token_by_email_token
        ⟨[userFix], [⟨4, .plain "T1", 1, 99⟩], [], []⟩ "a@b.com"
        (.plain "T1")
      = some (⟨4, .plain "T1", 1, 99⟩, userFix)
    ∧ ¬ (99 : Int) < 10
    ∧ (⟨4, .plain "T1", 1, 99⟩ : StoredToken) ∈
        (activate_account ⟨[userFix], [⟨4, .plain "T1", 1, 99⟩], [], []⟩
          10 "a@b.com" (.plain "T1")).db.activationTokens :=
  ⟨by decide, by decide,
    (activate_already_active_keeps_token
      ⟨[userFix], [⟨4, .plain "T1", 1, 99⟩], [], []⟩ 10 "a@b.com"
      (.plain "T1") ⟨4, .plain "T1", 1, 99⟩ userFix
      (by decide) (by decide) (by decide)).2.2⟩

/-- After consuming the unique matching activation token (activating its
user and deleting the row), the activation join for the same (email,
token) pair is empty. -/
lemma second_activation_call_empty {db : DB} {email : String}
    {tok : TokenString} {tr : StoredToken} {u : UserRec}
    (hm : activationMatches db email tok = [(tr, u)]) :
    activationMatches (deleteActivationToken (setUserActive db u.id) tr.id)
      email tok = [] := by
  unfold activationMatches
  apply List.filterMap_eq_nil_iff.mpr
  intro a ha
  have ha' : a ∈ db.activationTokens ∧ (a.id != tr.id) = true := by
    have h : a ∈ List.filter (fun t => t.id != tr.id) db.activationTokens := by
      simpa [deleteActivationToken, setUserActive] using ha
    exact List.mem_filter.mp h
  cases he : activationMatchEntry
      (deleteActivationToken (setUserActive db u.id) tr.id) email tok a with
  | none => rfl
  | some p =>
      exfalso
      obtain ⟨hp1, hgu, hem, htok⟩ := activationMatchEntry_some he
      have e1 := get_user_by_id_users_eq
        (show (deleteActivationToken (setUserActive db u.id) tr.id).users =
          (setUserActive db u.id).users from rfl) a.userId
      rw [e1, get_user_by_id_setUserActive] at hgu
      cases hu0 : get_user_by_id db a.userId with
      | none => rw [hu0] at hgu; simp at hgu
      | some u0 =>
          rw [hu0] at hgu
          simp only [Option.map_some'] at hgu
          have hfe : (if u0.id == u.id then { u0 with isActive := true }
              else u0).email = u0.email := by
            by_cases h : (u0.id == u.id) = true <;> simp [h]
          have hem0 : u0.email = email := by
            rw [← hfe]
            have hgu' : (if u0.id == u.id then { u0 with isActive := true }
                else u0) = p.2 := by
              exact Option.some.inj hgu
            rw [hgu']
            exact hem
          have hcond : (u0.email == email && a.token == tok) = true := by
            simp [hem0, htok]
          have hentry : activationMatchEntry db email tok a = some (a, u0) := by
            unfold activationMatchEntry
            rw [hu0]
            dsimp only
            rw [if_pos hcond]
          have hmem : (a, u0) ∈ activationMatches db email tok :=
            List.mem_filterMap.mpr ⟨a, ha'.1, hentry⟩
          rw [hm] at hmem
          simp only [List.mem_singleton, Prod.mk.injEq] at hmem
          have hid : a.id = tr.id := by rw [hmem.1]
          have hne := ha'.2
          simp [hid] at hne

/-- C4: an activation request matching exactly one stored unexpired token
of an inactive user succeeds; the resulting state is the combined
consumption (user activated, token row deleted); the identical second
request is rejected as invalid/not-found without further change; and any
request whose (email, token) join is empty — in particular the right
token string under the wrong email — is rejected. -/
theorem activation_consumes_token (db : DB) (now : Int) (email : String)
    (tok : TokenString) (tr : StoredToken) (u : UserRec)
    (hm : activationMatches db email tok = [(tr, u)])
    (hexp : ¬ tr.expiresAt < now)
    (hact : u.isActive = false) :
    (activate_account db now email tok).response =
      .ok "User account activated successfully."
    ∧ (activate_account db now email tok).db =
        deleteActivationToken (setUserActive db u.id) tr.id
    ∧ get_user_by_id (activate_account db now email tok).db u.id =
        some { u with isActive := true }
    ∧ tr ∉ (activate_account db now email tok).db.activationTokens
    ∧ activate_account (activate_account db now email tok).db now email tok =
        ⟨(activate_account db now email tok).db, [],
          .error (.badRequest "Invalid or expired activation token.")⟩
    ∧ (∀ email2, activationMatches db email2 tok = [] →
        (activate_account db now email2 tok).response =
          .error (.badRequest "Invalid or expired activation token.")) := by
  have hlook : get_activation_token_by_email_token db email tok =
      some (tr, u) := by
    unfold get_activation_token_by_email_token
    rw [hm]
    rfl
  have h1 : activate_account db now email tok =
      ⟨deleteActivationToken (setUserActive db u.id) tr.id,
        [.activationComplete email],
        .ok "User account activated successfully."⟩ := by
    simp [activate_account, hlook, hexp, hact]
  have huid : get_user_by_id db tr.userId = some u :=
    (mem_activationMatches (mem_of_head_eq_some hlook)).2.1
  have hu_id : u.id = tr.userId := (get_user_by_id_some huid).2
  have e1 : get_user_by_id
      (deleteActivationToken (setUserActive db u.id) tr.id) u.id =
      get_user_by_id (setUserActive db u.id) u.id :=
    get_user_by_id_users_eq rfl u.id
  have huid' : get_user_by_id db u.id = some u := by
    rw [hu_id]
    exact huid
  have e2 : get_user_by_id (setUserActive db u.id) u.id =
      some { u with isActive := true } := by
    rw [get_user_by_id_setUserActive, huid']
    simp
  have h4 : tr ∉ (deleteActivationToken (setUserActive db u.id)
      tr.id).activationTokens := by
    simp [deleteActivationToken, setUserActive, List.mem_filter]
  have hlook2 : get_activation_token_by_email_token
      (deleteActivationToken (setUserActive db u.id) tr.id) email tok =
      none := by
    unfold get_activation_token_by_email_token
    rw [second_activation_call_empty hm]
    rfl
  have h5 : activate_account
      (deleteActivationToken (setUserActive db u.id) tr.id) now email tok =
      ⟨deleteActivationToken (setUserActive db u.id) tr.id, [],
        .error (.badRequest "Invalid or expired activation token.")⟩ := by
    simp [activate_account, hlook2]
  refine ⟨by rw [h1], by rw [h1], ?_, ?_, ?_, ?_⟩
  · rw [h1]
    rw [show (⟨deleteActivationToken (setUserActive db u.id) tr.id,
      [.activationComplete email],
      .ok "User account activated successfully."⟩ :
        RouteResult String).db =
      deleteActivationToken (setUserActive db u.id) tr.id from rfl]
    rw [e1, e2]
  · rw [h1]
    exact h4
  · rw [h1]
    exact h5
  · intro email2 hm2
    have hlookNone : get_activation_token_by_email_token db email2 tok =
        none := by
      unfold get_activation_token_by_email_token
      rw [hm2]
      rfl
    simp [activate_account, hlookNone]

/-- C4 witness: the concrete end-to-end scenario: activate succeeds, the
token is consumed, the repeated identical call is rejected as invalid. -/
theorem activation_consumes_token_witness :
    activationMatches
        ⟨[⟨1, "a@b.com", "h", false, 1⟩], [⟨4, .plain "T1", 1, 99⟩], [], []⟩
        "a@b.com" (.plain "T1")
      = [(⟨4, .plain "T1", 1, 99⟩, ⟨1, "a@b.com", "h", false, 1⟩)]
    ∧ (activate_account
        ⟨[⟨1, "a@b.com", "h", false, 1⟩], [⟨4, .plain "T1", 1, 99⟩], [], []⟩
        10 "a@b.com" (.plain "T1")).response =
      .ok "User account activated successfully."
    ∧ activate_account
        (activate_account
          ⟨[⟨1, "a@b.com", "h", false, 1⟩], [⟨4, .plain "T1", 1, 99⟩], [], []⟩
          10 "a@b.com" (.plain "T1")).db 10 "a@b.com" (.plain "T1") =
      ⟨(activate_account
          ⟨[⟨1, "a@b.com", "h", false, 1⟩], [⟨4, .plain "T1", 1, 99⟩], [], []⟩
          10 "a@b.com" (.plain "T1")).db, [],
        .error (.badRequest "Invalid or expired activation token.")⟩ :=
  ⟨by decide,
    (activation_consumes_token
      ⟨[⟨1, "a@b.com", "h", false, 1⟩], [⟨4, .plain "T1", 1, 99⟩], [], []⟩
      10 "a@b.com" (.plain "T1") ⟨4, .plain "T1", 1, 99⟩
      ⟨1, "a@b.com", "h", false, 1⟩ (by decide) (by decide) (by decide)).1,
    (activation_consumes_token
      ⟨[⟨1, "a@b.com", "h", false, 1⟩], [⟨4, .plain "T1", 1, 99⟩], [], []⟩
      10 "a@b.com" (.plain "T1") ⟨4, .plain "T1", 1, 99⟩
      ⟨1, "a@b.com", "h", false, 1⟩ (by decide) (by decide)
      (by decide)).2.2.2.2.1⟩

/-- C5 counterexample: at the boundary `expires_at = now` the code does
not reject: an activation token whose `expires_at` equals the current
instant is accepted (the account is activated), and likewise a reset
token whose `expires_at` equals the current instant resets the password —
refuting the claim that `expires_at <= now` is rejected as expired. -/
theorem token_expiry_boundary_counterexample :
    (activate_account
        ⟨[⟨1, "a@b.com", "h", false, 1⟩], [⟨10, .plain "T1", 1, 5⟩], [], []⟩
        5 "a@b.com" (.plain "T1")).response =
      .ok "User account activated successfully."
    ∧ (activate_account
        ⟨[⟨1, "a@b.com", "h", false, 1⟩], [⟨10, .plain "T1", 1, 5⟩], [], []⟩
        5 "a@b.com" (.plain "T1")).response ≠
      .error (.badRequest "Invalid or expired activation token.")
    ∧ (reset_password ⟨[userFix], [], [⟨3, .plain "R", 1, 5⟩], []⟩ 5 cfgFix
        "a@b.com" (.plain "R") "npw").response =
      .ok "Password reset successfully."
    ∧ (⟨10, .plain "T1", 1, 5⟩ : StoredToken) ∈
        (⟨[⟨1, "a@b.com", "h", false, 1⟩], [⟨10, .plain "T1", 1, 5⟩], [], []⟩
          : DB).activationTokens :=
  ⟨by decide, by decide, by decide, by decide⟩

/-- C5 amended: the stored-token expiry check is strict: a present
activation or reset token is deleted and the request rejected exactly when
`expires_at < now`; a token whose `expires_at` equals the current instant
is still treated as valid (here: the activation proceeds when the user is
inactive). -/
theorem token_expiry_strict (db : DB) (now : Int) (cfg : Config)
    (email : String) (tok : TokenString) (newPassword : String) :
    (∀ tr u, get_activation_token_by_email_token db email tok =
        some (tr, u) →
      tr.expiresAt < now →
      activate_account db now email tok =
        ⟨deleteActivationToken db tr.id, [],
          .error (.badRequest "Invalid or expired activation token.")⟩)
    ∧ (∀ user tr, get_user_by_email db email = some user →
        user.isActive = true →
        get_password_reset_token_by_user_id db user.id = some tr →
        tr.token = tok → tr.expiresAt < now →
        reset_password db now cfg email tok newPassword =
          ⟨deletePasswordResetToken db tr.id, [],
            .error (.badRequest "Invalid email or token.")⟩)
    ∧ (∀ tr u, get_activation_token_by_email_token db email tok =
        some (tr, u) →
      tr.expiresAt = now → u.isActive = false →
      (activate_account db now email tok).response =
        .ok "User account activated successfully.") := by
  refine ⟨?_, ?_, ?_⟩
  · intro tr u hlook hexp
    simp [activate_account, hlook, hexp]
  · intro user tr hu hact ht htok hexp
    have hb : (tr.token != tok) = false := by
      simp [htok]
    simp [reset_password, hu, hact, ht, hb, hexp]
  · intro tr u hlook heq hact
    have hnl : ¬ tr.expiresAt < now := by
      rw [heq]
      exact lt_irrefl now
    simp [activate_account, hlook, hnl, hact]

/-- C5-amended witness: a token one instant past its expiry is deleted and
rejected, while one expiring exactly now is accepted. -/
theorem token_expiry_strict_witness :
    get_activation_token_by_email_token
        ⟨[⟨1, "a@b.com", "h", false, 1⟩], [⟨10, .plain "T1", 1, 5⟩], [], []⟩
        "a@b.com" (.plain "T1")
      = some (⟨10, .plain "T1", 1, 5⟩, ⟨1, "a@b.com", "h", false, 1⟩)
    ∧ (5 : Int) < 6
    ∧ activate_account
        ⟨[⟨1, "a@b.com", "h", false, 1⟩], [⟨10, .plain "T1", 1, 5⟩], [], []⟩
        6 "a@b.com" (.plain "T1") =
      ⟨deleteActivationToken
          ⟨[⟨1, "a@b.com", "h", false, 1⟩], [⟨10, .plain "T1", 1, 5⟩], [], []⟩
          10, [],
        .error (.badRequest "Invalid or expired activation token.")⟩ :=
  ⟨by decide, by decide,
    (token_expiry_strict
      ⟨[⟨1, "a@b.com", "h", false, 1⟩], [⟨10, .plain "T1", 1, 5⟩], [], []⟩
      6 cfgFix "a@b.com" (.plain "T1") "npw").1
      ⟨10, .plain "T1", 1, 5⟩ ⟨1, "a@b.com", "h", false, 1⟩
      (by decide) (by decide)⟩

end Cinema
